import Mathlib

/-!
Verification of the nebula-stack-consulting agents.

This file gives a shallow embedding of the two agent implementations
(`cto_agent/agent.py` and `principal_se/agent.py`) and proves properties
of the scoring, decision and serialization logic.

Modelling conventions:
* Python `float` arithmetic is modelled by exact rationals (`ℚ`); all the
  constants in the source are decimal literals, written here as fractions
  (`0.4` as `2/5`, and so on).
* Python `round(x, 1)` is modelled by `pyRound1` (round to one decimal
  place); the tie-breaking direction of the rounding is immaterial to every
  theorem below.
* Python `dict` values are modelled as insertion-ordered association lists
  (`List (String × _)`), matching the insertion order kept by Python dicts.
* Opaque pass-through dicts (`tech_stack`, goals, design components) are
  modelled as `StrMap`, an association list of strings: the code never
  inspects them, it only stores and re-emits them.
* `datetime.utcnow().isoformat()` is modelled by an explicit `now : String`
  argument threaded to the constructors that call it.
* Python string `.lower()` is modelled by `lowerStr` (ASCII lowering, which
  agrees with Python on all strings appearing in this code base), and the
  substring test `a in b` by `hasSub`.
-/

namespace NebulaStack

/-- ASCII lowercase of a string, modelling Python `str.lower()`. -/
def lowerStr (s : String) : String := String.mk (s.data.map Char.toLower)

/-- Test whether `needle` starts `hay` (`matchAt needle hay`). -/
def matchAt : List Char → List Char → Bool
  | [], _ => true
  | _ :: _, [] => false
  | n :: ns, h :: hs => n == h && matchAt ns hs

/-- Substring test: `hasSub hay needle` is true iff `needle` occurs contiguously inside
`hay`, modelling Python `needle in hay` on strings. -/
def hasSub (hay needle : List Char) : Bool :=
  match hay with
  | [] => needle.isEmpty
  | _ :: t => matchAt needle hay || hasSub t needle

/-- Python `dict.get(k, d)` on an association list.  Every mapping handled
by the code keeps its keys unique (dict insertion either adds a fresh key
or is keyed by a dataclass name), so first-match lookup agrees with Python
dict lookup. -/
def dictGetD {α : Type} (m : List (String × α)) (k : String) (d : α) : α :=
  match m.find? (fun p => p.1 == k) with
  | some p => p.2
  | none => d

/-- Python `dict.get(k)` on an association list (`None` when absent). -/
def dictGet? {α : Type} (m : List (String × α)) (k : String) : Option α :=
  (m.find? (fun p => p.1 == k)).map (fun p => p.2)

/-- Python `round(x, 1)`: round to one decimal place. -/
def pyRound1 (x : ℚ) : ℚ := ((round (x * 10) : ℤ) : ℚ) / 10

/-- An opaque JSON-like string mapping that the code stores and re-emits
without ever inspecting. -/
abbrev StrMap := List (String × String)

/-! ## Principal Software Engineer agent: data model (`principal_se/agent.py`) -/

/-- The `Technology` dataclass. -/
structure Technology where
  name : String
  category : String
  maturity : String
  adoption_level : String
  description : String
  pros : List String
  cons : List String
  use_cases : List String
  last_evaluated : String
deriving DecidableEq

/-- The `ArchitecturePattern` enum. -/
inductive ArchitecturePattern
  | microservices
  | event_driven
  | layered
  | pipe_filter
  | cqrs
  | serverless
  | microkernel
deriving DecidableEq

/-- The `.value` string of each `ArchitecturePattern` member. -/
def ArchitecturePattern.value : ArchitecturePattern → String
  | .microservices => "Microservices"
  | .event_driven => "Event-Driven Architecture"
  | .layered => "Layered Architecture"
  | .pipe_filter => "Pipe-Filter"
  | .cqrs => "Command Query Responsibility Segregation"
  | .serverless => "Serverless"
  | .microkernel => "Microkernel"

/-- Conversion `ArchitecturePattern(s)`: the enum member whose `.value` is `s`, or
`none` where Python raises `ValueError`. -/
def ArchitecturePattern.ofValue (s : String) : Option ArchitecturePattern :=
  if s = "Microservices" then some .microservices
  else if s = "Event-Driven Architecture" then some .event_driven
  else if s = "Layered Architecture" then some .layered
  else if s = "Pipe-Filter" then some .pipe_filter
  else if s = "Command Query Responsibility Segregation" then some .cqrs
  else if s = "Serverless" then some .serverless
  else if s = "Microkernel" then some .microkernel
  else none

/-- The `SystemDesign` dataclass. `components` and `technologies` hold
opaque dicts, modelled as `StrMap`. -/
structure SystemDesign where
  name : String
  description : String
  components : List StrMap
  patterns : List ArchitecturePattern
  technologies : List StrMap
  scalability_considerations : List String
  failure_modes : List String
  created_at : String
deriving DecidableEq

/-- The mutable state of a `PrincipalSE` instance.  The fields
`design_patterns`, `cloud_providers` and `code_review_findings` of the
Python class are omitted: no operation modelled here reads them and
`to_dict` does not serialize them. -/
structure PrincipalSE where
  name : String
  expertise : List String
  experience_years : Int
  technologies : List (String × Technology)
  system_designs : List (String × SystemDesign)
deriving DecidableEq

/-- The two default technologies installed by `_init_default_technologies`. -/
def defaultTechnologies (now : String) : List (String × Technology) :=
  [("Docker",
    { name := "Docker", category := "Containerization", maturity := "mature",
      adoption_level := "production",
      description := "Platform for developing, shipping, and running applications in containers",
      pros := ["Lightweight", "Portable", "Ecosystem"],
      cons := ["Security concerns if not properly configured", "Learning curve"],
      use_cases := ["Microservices", "CI/CD", "Development environments"],
      last_evaluated := now }),
   ("Kubernetes",
    { name := "Kubernetes", category := "Container Orchestration", maturity := "mature",
      adoption_level := "production",
      description := "Open-source container orchestration system",
      pros := ["Scalability", "High availability", "Self-healing"],
      cons := ["Complexity", "Steep learning curve"],
      use_cases := ["Microservices orchestration", "Cloud-native applications"],
      last_evaluated := now })]

/-- Constructor `PrincipalSE.__init__`. -/
def PrincipalSE.init (name : String) (expertise : List String)
    (experience_years : Int) (now : String) : PrincipalSE :=
  { name, expertise, experience_years,
    technologies := defaultTechnologies now, system_designs := [] }

/-- The evaluation context passed to `evaluate_technology`: an optional
`requirements` key (`none` models an absent key). -/
structure Context where
  requirements : Option (List String)
deriving DecidableEq

/-- The fixed `maturity_scores` table of `_calculate_tech_fit_score`. -/
def maturity_scores : List (String × ℚ) :=
  [("mature", 1), ("growth", 4/5), ("emerging", 3/5), ("legacy", 2/5)]

/-- Whether requirement `req` occurs case-insensitively inside at least one
use-case string, i.e. Python `any(req.lower() in uc.lower() for uc in use_cases)`. -/
def reqMatches (use_cases : List String) (req : String) : Bool :=
  use_cases.any (fun uc => hasSub (lowerStr uc).data (lowerStr req).data)

/-- Source translation of `PrincipalSE._calculate_tech_fit_score`.  The constants `0.4` and `0.6`
of the source are written `2/5` and `3/5`. -/
def calculateTechFitScore (tech : Technology) (context : Context) : ℚ :=
  let score : ℚ := 0
  let score := score + dictGetD maturity_scores (lowerStr tech.maturity) (1/2) * (2/5)
  let requirements := context.requirements.getD []
  let score :=
    if !requirements.isEmpty then
      let matched : ℕ :=
        requirements.foldl (fun n req => if reqMatches tech.use_cases req then n + 1 else n) 0
      score + ((matched : ℚ) / (requirements.length : ℚ)) * (3/5)
    else score
  pyRound1 (score * 10)

/-- The evaluation record built by `evaluate_technology` on a hit. -/
structure Evaluation where
  technology : String
  maturity : String
  adoption_level : String
  fit_score : ℚ
  pros : List String
  cons : List String
  recommendation : String
  rationale : String
deriving DecidableEq

/-- Result of `evaluate_technology`: either the `not_found` status dict or
an evaluation record. -/
inductive EvalResult
  | notFound (message : String)
  | ok (evaluation : Evaluation)
deriving DecidableEq

/-- Source translation of `PrincipalSE.evaluate_technology`. -/
def PrincipalSE.evaluateTechnology (self : PrincipalSE) (name : String)
    (context : Context) : EvalResult :=
  match dictGet? self.technologies name with
  | none => .notFound ("No data available for technology: " ++ name)
  | some tech =>
    let fit_score := calculateTechFitScore tech context
    if fit_score ≥ 8 then
      .ok ⟨tech.name, tech.maturity, tech.adoption_level, fit_score, tech.pros, tech.cons,
        "Strongly recommend adoption",
        "Excellent fit based on current requirements and technology maturity"⟩
    else if fit_score ≥ 6 then
      .ok ⟨tech.name, tech.maturity, tech.adoption_level, fit_score, tech.pros, tech.cons,
        "Consider for pilot",
        "Good potential fit, but evaluate further with a proof of concept"⟩
    else
      .ok ⟨tech.name, tech.maturity, tech.adoption_level, fit_score, tech.pros, tech.cons,
        "Not recommended at this time",
        "Does not align well with current requirements or technology maturity"⟩

/-! ## CTO agent: data model and operations (`cto_agent/agent.py`) -/

/-- The `TechnologyTrend` dataclass. -/
structure TechnologyTrend where
  name : String
  category : String
  maturity : String
  potential_impact : String
  description : String
  relevant_use_cases : List String
  last_updated : String
deriving DecidableEq

/-- The mutable state of a `CTOAgent` instance. -/
structure CTOAgent where
  company_name : String
  industry : String
  tech_stack : StrMap
  technology_portfolio : List (String × TechnologyTrend)
  strategic_goals : List StrMap
  team_structure : StrMap
  budget_allocation : StrMap
deriving DecidableEq

/-- The two default trends installed by `CTOAgent._init_default_technologies`. -/
def defaultTechnologyTrends (now : String) : List (String × TechnologyTrend) :=
  [("AI/ML",
    { name := "AI/ML", category := "Artificial Intelligence", maturity := "growth",
      potential_impact := "High",
      description := "Advancements in machine learning and AI are transforming business operations.",
      relevant_use_cases := ["automation", "predictive analytics", "personalization"],
      last_updated := now }),
   ("Cloud Native",
    { name := "Cloud Native", category := "Cloud Computing", maturity := "mature",
      potential_impact := "High",
      description := "Cloud-native technologies enable scalable and resilient applications.",
      relevant_use_cases := ["microservices", "containers", "serverless"],
      last_updated := now })]

/-- Constructor `CTOAgent.__init__` (with `tech_stack or` fallback to the empty
mapping already resolved by the caller). -/
def CTOAgent.init (company_name industry : String) (tech_stack : StrMap)
    (now : String) : CTOAgent :=
  { company_name, industry, tech_stack,
    technology_portfolio := defaultTechnologyTrends now,
    strategic_goals := [], team_structure := [], budget_allocation := [] }

/-- The assessment record built by `assess_technology` on a hit. -/
structure Assessment where
  technology : String
  maturity : String
  potential_impact : String
  recommendation : String
  rationale : String
deriving DecidableEq

/-- Result of `assess_technology`: either the `unknown` status dict or an
assessment record. -/
inductive AssessResult
  | unknown (message : String)
  | ok (assessment : Assessment)
deriving DecidableEq

/-- Source translation of `CTOAgent.assess_technology`.  The `business_context` argument is
accepted and, as in the source, never read. -/
def CTOAgent.assessTechnology (self : CTOAgent) (technology_name : String)
    (_business_context : StrMap) : AssessResult :=
  match dictGet? self.technology_portfolio technology_name with
  | none => .unknown ("No data on " ++ technology_name)
  | some tech =>
    if tech.maturity == "emerging" && tech.potential_impact == "High" then
      .ok ⟨tech.name, tech.maturity, tech.potential_impact,
        "Monitor and consider pilot projects",
        "High potential impact warrants monitoring despite emerging status"⟩
    else if tech.maturity == "mature" && ["High", "Medium"].contains tech.potential_impact then
      .ok ⟨tech.name, tech.maturity, tech.potential_impact,
        "Strong candidate for adoption",
        "Mature technology with significant potential impact"⟩
    else
      .ok ⟨tech.name, tech.maturity, tech.potential_impact,
        "Evaluate case-by-case",
        "Needs further evaluation based on specific use cases"⟩

/-- A decision option: an opaque identity plus the three optional score
fields read by `make_decision` (`none` models an absent key). -/
structure DecisionOption where
  label : String
  strategic_alignment_score : Option ℚ
  cost_score : Option ℚ
  risk_score : Option ℚ
deriving DecidableEq

/-- The default criteria list of `make_decision`. -/
def defaultCriteria : List String := ["strategic_alignment", "cost", "risk"]

/-- The per-option score accumulated by the loop body of `make_decision`.
The constants `0.5`, `0.3`, `0.2` are written `1/2`, `3/10`, `1/5`. -/
def optionScore (criteria : List String) (option : DecisionOption) : ℚ :=
  let score : ℚ := 0
  let score :=
    if criteria.contains "strategic_alignment" then
      score + option.strategic_alignment_score.getD 0 * (1/2)
    else score
  let score :=
    if criteria.contains "cost" then
      score + (1 - min (option.cost_score.getD (1/2)) 1) * (3/10)
    else score
  let score :=
    if criteria.contains "risk" then
      score + (1 - min (option.risk_score.getD (1/2)) 1) * (1/5)
    else score
  score

/-- The `decision_context` argument of `make_decision`: optional `options`
and `criteria` keys. -/
structure DecisionContext where
  options : Option (List DecisionOption)
  criteria : Option (List String)
deriving DecidableEq

/-- Result of `make_decision`: the empty-options sentinel
`{"decision": None, "rationale": ...}` or a full decision dict. -/
inductive DecisionResult
  | noOptions (rationale : String)
  | made (decision : DecisionOption) (score : ℚ) (rationale : String)
      (all_options : List (DecisionOption × ℚ))
deriving DecidableEq

/-- The comparison used to model `scored_options.sort(key=..., reverse=True)`:
the stable Python sort in descending score order is a stable merge sort with
this "already in order" test. -/
def scoreDesc (a b : DecisionOption × ℚ) : Bool := decide (b.2 ≤ a.2)

/-- Source translation of `CTOAgent.make_decision` (the method reads no instance state, so it is
modelled as a plain function). -/
def makeDecision (decision_context : DecisionContext) : DecisionResult :=
  let options := decision_context.options.getD []
  let criteria := decision_context.criteria.getD defaultCriteria
  match options with
  | [] => .noOptions "No options provided for decision"
  | _ :: _ =>
    let scored_options := options.map (fun option => (option, optionScore criteria option))
    match scored_options.mergeSort scoreDesc with
    -- unreachable: `mergeSort` preserves length, and `options` is non-empty here,
    -- mirroring that `scored_options[0]` in the source cannot fail on this path
    | [] => .noOptions "No options provided for decision"
    | best :: rest =>
      .made best.1 best.2
        ("Selected option based on criteria: " ++ String.intercalate ", " criteria)
        (best :: rest)

/-! ## Serialization (`to_dict` / `from_dict`)

Snapshot structures mirror the JSON mappings emitted by `to_dict`.  A field
read back with `dict.get(k, default)` in `from_dict` is `Option`-typed here
(`none` models a missing key); a field read with `data[k]` (raising
`KeyError` when absent) is required. -/

/-- One value of the `technology_portfolio` mapping in a `CTOAgent` snapshot. -/
structure TechnologyTrendSnap where
  category : String
  maturity : String
  potential_impact : String
  description : String
  relevant_use_cases : List String
  last_updated : Option String
deriving DecidableEq

/-- The snapshot emitted by `CTOAgent.to_dict`. -/
structure CTOSnapshot where
  company_name : String
  industry : String
  tech_stack : Option StrMap
  strategic_goals : Option (List StrMap)
  technology_portfolio : Option (List (String × TechnologyTrendSnap))
  team_structure : Option StrMap
  budget_allocation : Option StrMap
deriving DecidableEq

/-- Source translation of `CTOAgent.to_dict`.  As in the source, `tech.name` is dropped: the
mapping key stands for it. -/
def CTOAgent.toDict (self : CTOAgent) : CTOSnapshot :=
  { company_name := self.company_name
    industry := self.industry
    tech_stack := some self.tech_stack
    strategic_goals := some self.strategic_goals
    technology_portfolio := some (self.technology_portfolio.map fun p =>
      (p.1,
       { category := p.2.category, maturity := p.2.maturity,
         potential_impact := p.2.potential_impact, description := p.2.description,
         relevant_use_cases := p.2.relevant_use_cases,
         last_updated := some p.2.last_updated }))
    team_structure := some self.team_structure
    budget_allocation := some self.budget_allocation }

/-- Source translation of `CTOAgent.from_dict`.  The default portfolio installed
by the constructor is discarded
(the source overwrites `technology_portfolio` with `{}` before rebuilding),
so the net state is written directly.  `now` models the fresh
`datetime.utcnow().isoformat()` default for a missing `last_updated`. -/
def CTOAgent.fromDict (data : CTOSnapshot) (now : String) : CTOAgent :=
  { company_name := data.company_name
    industry := data.industry
    tech_stack := data.tech_stack.getD []
    strategic_goals := data.strategic_goals.getD []
    team_structure := data.team_structure.getD []
    budget_allocation := data.budget_allocation.getD []
    technology_portfolio := (data.technology_portfolio.getD []).map fun p =>
      (p.1,
       { name := p.1, category := p.2.category, maturity := p.2.maturity,
         potential_impact := p.2.potential_impact, description := p.2.description,
         relevant_use_cases := p.2.relevant_use_cases,
         last_updated := p.2.last_updated.getD now }) }

/-- One value of the `technologies` mapping in a `PrincipalSE` snapshot. -/
structure TechnologySnap where
  category : String
  maturity : String
  adoption_level : String
  description : String
  pros : List String
  cons : List String
  use_cases : List String
  last_evaluated : Option String
deriving DecidableEq

/-- One value of the `system_designs` mapping in a `PrincipalSE` snapshot:
only `description`, `patterns` (as `.value` strings), `technologies` and
`created_at` are serialized. -/
structure SystemDesignSnap where
  description : String
  patterns : List String
  technologies : List StrMap
  created_at : Option String
deriving DecidableEq

/-- The snapshot emitted by `PrincipalSE.to_dict`. -/
structure PSESnapshot where
  name : String
  expertise : List String
  experience_years : Option Int
  technologies : Option (List (String × TechnologySnap))
  system_designs : Option (List (String × SystemDesignSnap))
deriving DecidableEq

/-- Source translation of `PrincipalSE.to_dict`. -/
def PrincipalSE.toDict (self : PrincipalSE) : PSESnapshot :=
  { name := self.name
    expertise := self.expertise
    experience_years := some self.experience_years
    technologies := some (self.technologies.map fun p =>
      (p.1,
       { category := p.2.category, maturity := p.2.maturity,
         adoption_level := p.2.adoption_level, description := p.2.description,
         pros := p.2.pros, cons := p.2.cons, use_cases := p.2.use_cases,
         last_evaluated := some p.2.last_evaluated }))
    system_designs := some (self.system_designs.map fun p =>
      (p.1,
       { description := p.2.description,
         patterns := p.2.patterns.map ArchitecturePattern.value,
         technologies := p.2.technologies,
         created_at := some p.2.created_at })) }

/-- Source translation of `PrincipalSE.from_dict`.  Returns `none` where the source raises
`ValueError` (an unrecognized `ArchitecturePattern` value string); the
rebuilt designs get empty `components`, `scalability_considerations` and
`failure_modes`, exactly as in the source. -/
def PrincipalSE.fromDict (data : PSESnapshot) (now : String) : Option PrincipalSE := do
  let designs ← (data.system_designs.getD []).mapM (fun p => do
    let patterns ← p.2.patterns.mapM ArchitecturePattern.ofValue
    pure (p.1,
      ({ name := p.1, description := p.2.description, components := [],
         patterns, technologies := p.2.technologies,
         scalability_considerations := [], failure_modes := [],
         created_at := p.2.created_at.getD now } : SystemDesign)))
  pure
    { name := data.name
      expertise := data.expertise
      experience_years := data.experience_years.getD 5
      technologies := (data.technologies.getD []).map fun p =>
        (p.1,
         { name := p.1, category := p.2.category, maturity := p.2.maturity,
           adoption_level := p.2.adoption_level, description := p.2.description,
           pros := p.2.pros, cons := p.2.cons, use_cases := p.2.use_cases,
           last_evaluated := p.2.last_evaluated.getD now })
      system_designs := designs }


/-! ## Claim-side definitions and concrete inputs

Definitions below either follow the exact wording of the spec (named `spec...`,
used to compare against the source translation) or are concrete inputs
used by counterexamples and witnesses. -/

/-- The maturity weight as the spec words it (case-insensitive lookup in the
fixed table, default `0.5` when unmapped); `spec`-named because it follows
the spec, for comparison with the source translation. -/
def specMaturityWeight (maturity : String) : ℚ :=
  if lowerStr maturity = "mature" then 1
  else if lowerStr maturity = "growth" then 4/5
  else if lowerStr maturity = "emerging" then 3/5
  else if lowerStr maturity = "legacy" then 2/5
  else 1/2

/-- The fit score as claim C1 words it: `round(base * 10, 1)` with
`base = w * 0.4` plus, only for non-empty requirements,
`(match_count / len(requirements)) * 0.6`. -/
def specFitScore (tech : Technology) (context : Context) : ℚ :=
  let reqs := context.requirements.getD []
  let matchCount := reqs.countP fun req =>
    decide (∃ uc ∈ tech.use_cases, hasSub (lowerStr uc).data (lowerStr req).data = true)
  pyRound1 ((specMaturityWeight tech.maturity * (2/5) +
    (if reqs = [] then 0 else (matchCount : ℚ) / (reqs.length : ℚ) * (3/5))) * 10)

/-- The per-option decision score as claim C2 words it. -/
def specOptionScore (criteria : List String) (option : DecisionOption) : ℚ :=
  (if "strategic_alignment" ∈ criteria then option.strategic_alignment_score.getD 0 * (1/2) else 0) +
  (if "cost" ∈ criteria then (1 - min (option.cost_score.getD (1/2)) 1) * (3/10) else 0) +
  (if "risk" ∈ criteria then (1 - min (option.risk_score.getD (1/2)) 1) * (1/5) else 0)

/-- The default Docker record, as installed with timestamp `now`. -/
def dockerTech (now : String) : Technology :=
  { name := "Docker", category := "Containerization", maturity := "mature",
    adoption_level := "production",
    description := "Platform for developing, shipping, and running applications in containers",
    pros := ["Lightweight", "Portable", "Ecosystem"],
    cons := ["Security concerns if not properly configured", "Learning curve"],
    use_cases := ["Microservices", "CI/CD", "Development environments"],
    last_evaluated := now }

/-- The evaluation record produced for Docker against requirement
"Microservices". -/
def dockerEvaluation : Evaluation :=
  { technology := "Docker", maturity := "mature", adoption_level := "production",
    fit_score := 10, pros := ["Lightweight", "Portable", "Ecosystem"],
    cons := ["Security concerns if not properly configured", "Learning curve"],
    recommendation := "Strongly recommend adoption",
    rationale := "Excellent fit based on current requirements and technology maturity" }

/-- The AWS option of the worked example: strategic 0.9, cost 0.7, risk 0.2. -/
def awsOption : DecisionOption := ⟨"AWS", some (9/10), some (7/10), some (1/5)⟩

/-- The Azure option of the worked example: strategic 0.8, cost 0.6, risk 0.3. -/
def azureOption : DecisionOption := ⟨"Azure", some (4/5), some (3/5), some (3/10)⟩

/-- The GCP option of the worked example: strategic 0.7, cost 0.8, risk 0.4. -/
def gcpOption : DecisionOption := ⟨"GCP", some (7/10), some (4/5), some (2/5)⟩

/-- Projection of the ranked `all_options` list out of a decision result. -/
def allOptions : DecisionResult → List (DecisionOption × ℚ)
  | .noOptions _ => []
  | .made _ _ _ all => all

/-- The design snapshot emitted by `PrincipalSE.to_dict` for one stored design. -/
def designToSnap (p : String × SystemDesign) : String × SystemDesignSnap :=
  (p.1, { description := p.2.description,
          patterns := p.2.patterns.map ArchitecturePattern.value,
          technologies := p.2.technologies,
          created_at := some p.2.created_at })

/-- The design rebuilt by `PrincipalSE.from_dict` from a to_dict-produced
design snapshot: `components`, `scalability_considerations` and
`failure_modes` come back empty. -/
def designRebuilt (p : String × SystemDesign) : String × SystemDesign :=
  (p.1, { name := p.1, description := p.2.description, components := [],
          patterns := p.2.patterns, technologies := p.2.technologies,
          scalability_considerations := [], failure_modes := [],
          created_at := p.2.created_at })

/-- The technology rebuilt by `PrincipalSE.from_dict` from a
to_dict-produced technology snapshot: only `name` changes, to the key. -/
def techRebuilt (p : String × Technology) : String × Technology :=
  (p.1, { name := p.1, category := p.2.category, maturity := p.2.maturity,
          adoption_level := p.2.adoption_level, description := p.2.description,
          pros := p.2.pros, cons := p.2.cons, use_cases := p.2.use_cases,
          last_evaluated := p.2.last_evaluated })

/-- A concrete agent holding one design with non-empty components,
scalability considerations and failure modes. -/
def shopAgent : PrincipalSE :=
  { name := "P", expertise := ["Cloud"], experience_years := 12,
    technologies := [],
    system_designs := [("Shop",
      { name := "Shop", description := "online shop", components := [[("kind", "db")]],
        patterns := [.layered], technologies := [[("db", "postgres")]],
        scalability_considerations := ["cache"], failure_modes := ["db down"],
        created_at := "t1" })] }

/-- The agent rebuilt from the snapshot of `shopAgent`: the three design lists
come back empty. -/
def shopAgentRebuilt : PrincipalSE :=
  { name := "P", expertise := ["Cloud"], experience_years := 12,
    technologies := [],
    system_designs := [("Shop",
      { name := "Shop", description := "online shop", components := [],
        patterns := [.layered], technologies := [[("db", "postgres")]],
        scalability_considerations := [], failure_modes := [],
        created_at := "t1" })] }

/-! ## Helper lemmas -/

theorem foldl_count {α : Type} (p : α → Bool) (l : List α) (n : ℕ) :
    l.foldl (fun n a => if p a then n + 1 else n) n = n + l.countP p := by
  induction l generalizing n with
  | nil => simp
  | cons a t ih =>
    simp only [List.foldl_cons, List.countP_cons, ih]
    by_cases h : p a
    · simp only [h, if_true]
      omega
    · simp [h]

theorem reqMatches_eq (ucs : List String) (r : String) :
    reqMatches ucs r =
      decide (∃ uc ∈ ucs, hasSub (lowerStr uc).data (lowerStr r).data = true) := by
  rw [Bool.eq_iff_iff]
  simp [reqMatches, List.any_eq_true]

/-! ## Claim C1: the technology fit score formula -/

theorem dictGetD_maturity (m : String) :
    dictGetD maturity_scores (lowerStr m) (1/2) = specMaturityWeight m := by
  unfold specMaturityWeight
  generalize lowerStr m = s
  by_cases h1 : s = "mature"
  · subst h1; rfl
  by_cases h2 : s = "growth"
  · subst h2; rfl
  by_cases h3 : s = "emerging"
  · subst h3; rfl
  by_cases h4 : s = "legacy"
  · subst h4; rfl
  · have e1 : ("mature" == s) = false := beq_eq_false_iff_ne.mpr fun h => h1 h.symm
    have e2 : ("growth" == s) = false := beq_eq_false_iff_ne.mpr fun h => h2 h.symm
    have e3 : ("emerging" == s) = false := beq_eq_false_iff_ne.mpr fun h => h3 h.symm
    have e4 : ("legacy" == s) = false := beq_eq_false_iff_ne.mpr fun h => h4 h.symm
    simp [dictGetD, maturity_scores, List.find?_cons, e1, e2, e3, e4, h1, h2, h3, h4]

/-- C1: for every `Technology` record and context, `_calculate_tech_fit_score`
returns `round(base * 10, 1)` where `base = w * 0.4` plus, only if the
requirements list is non-empty, `(match_count / len(requirements)) * 0.6`;
`w` is the case-insensitive maturity lookup with default `0.5`, and
`match_count` counts requirements occurring case-insensitively as a
substring of at least one use case.  With empty or absent requirements the
score is exactly `round(w * 0.4 * 10, 1)`.  Totality ("never fails") holds
by construction of `calculateTechFitScore`. -/
theorem fit_score_matches_spec (tech : Technology) (context : Context) :
    calculateTechFitScore tech context = specFitScore tech context ∧
    (context.requirements = none ∨ context.requirements = some [] →
      calculateTechFitScore tech context =
        pyRound1 (specMaturityWeight tech.maturity * (2/5) * 10)) := by
  have main : calculateTechFitScore tech context = specFitScore tech context := by
    unfold calculateTechFitScore specFitScore
    rw [dictGetD_maturity]
    cases hreq : context.requirements.getD [] with
    | nil => simp
    | cons a l =>
      simp only [List.isEmpty_cons, Bool.not_false, if_true, reduceCtorEq, if_false]
      rw [foldl_count]
      have hcount : List.countP (fun req => reqMatches tech.use_cases req) (a :: l) =
          List.countP (fun req =>
            decide (∃ uc ∈ tech.use_cases, hasSub (lowerStr uc).data (lowerStr req).data = true))
            (a :: l) :=
        List.countP_congr fun x _ => by simp [reqMatches_eq]
      simp only [Nat.zero_add, zero_add, hcount]
  refine ⟨main, fun h => ?_⟩
  rw [main]
  unfold specFitScore
  have hreq : context.requirements.getD [] = [] := by
    rcases h with h | h <;> simp [h]
  simp [hreq]

/-- Witness for `fit_score_matches_spec` at the Docker record with an
absent requirements key. -/
theorem fit_score_matches_spec_witness :
    calculateTechFitScore
        { name := "Docker", category := "Containerization", maturity := "mature",
          adoption_level := "production", description := "d", pros := [], cons := [],
          use_cases := ["Microservices"], last_evaluated := "t0" } ⟨none⟩ =
      specFitScore
        { name := "Docker", category := "Containerization", maturity := "mature",
          adoption_level := "production", description := "d", pros := [], cons := [],
          use_cases := ["Microservices"], last_evaluated := "t0" } ⟨none⟩ ∧
    calculateTechFitScore
        { name := "Docker", category := "Containerization", maturity := "mature",
          adoption_level := "production", description := "d", pros := [], cons := [],
          use_cases := ["Microservices"], last_evaluated := "t0" } ⟨none⟩ =
      pyRound1 (specMaturityWeight "mature" * (2/5) * 10) :=
  ⟨(fit_score_matches_spec _ _).1, (fit_score_matches_spec _ _).2 (Or.inl rfl)⟩

/-! ## Claim C2: the per-option decision score formula -/

/-- C2: `make_decision` scores every option by
`strategic_alignment_score * 0.5` (criterion `strategic_alignment`, default 0)
plus `(1 - min(cost_score, 1)) * 0.3` (criterion `cost`, default 0.5) plus
`(1 - min(risk_score, 1)) * 0.2` (criterion `risk`, default 0.5); the clamp
is from above only, so a negative `cost_score` or `risk_score` strictly
inflates its term. -/
theorem option_score_spec :
    (∀ (criteria : List String) (option : DecisionOption),
       optionScore criteria option = specOptionScore criteria option) ∧
    (∀ (ctx : DecisionContext) (d : DecisionOption) (s : ℚ) (r : String)
       (all : List (DecisionOption × ℚ)),
       makeDecision ctx = .made d s r all →
       ∀ p ∈ all, p.2 = specOptionScore (ctx.criteria.getD defaultCriteria) p.1) ∧
    (∀ (lbl : String) (c : ℚ), c < 0 →
       optionScore ["cost"] ⟨lbl, none, some c, none⟩ >
         optionScore ["cost"] ⟨lbl, none, some 0, none⟩ ∧
       optionScore ["risk"] ⟨lbl, none, none, some c⟩ >
         optionScore ["risk"] ⟨lbl, none, none, some 0⟩) := by
  have hmain : ∀ (criteria : List String) (option : DecisionOption),
      optionScore criteria option = specOptionScore criteria option := by
    intro criteria option
    unfold optionScore specOptionScore
    by_cases h1 : "strategic_alignment" ∈ criteria <;>
      by_cases h2 : "cost" ∈ criteria <;>
        by_cases h3 : "risk" ∈ criteria <;>
          simp [List.contains, List.elem_iff, h1, h2, h3]
  refine ⟨hmain, ?_, ?_⟩
  · intro ctx d s r all h p hp
    unfold makeDecision at h
    cases hopts : ctx.options.getD [] with
    | nil => rw [hopts] at h; simp at h
    | cons o os =>
      rw [hopts] at h
      simp only at h
      cases hms : ((o :: os).map fun option =>
          (option, optionScore (ctx.criteria.getD defaultCriteria) option)).mergeSort scoreDesc with
      | nil => rw [hms] at h; simp at h
      | cons b rest =>
        rw [hms] at h
        simp only [DecisionResult.made.injEq] at h
        obtain ⟨-, -, -, hall⟩ := h
        have hp2 : p ∈ (b :: rest) := hall ▸ hp
        rw [← hms, List.mem_mergeSort] at hp2
        obtain ⟨o2, -, rfl⟩ := List.mem_map.mp hp2
        exact hmain _ _
  · intro lbl c hc
    have hmin : min c 1 = c := min_eq_left (hc.le.trans zero_le_one)
    constructor <;>
      simp [optionScore, List.contains, hmin] <;> linarith

/-! ## Claim C5: the assessment rule table -/

theorem contains_high_medium (s : String) :
    (["High", "Medium"].contains s) = true ↔ (s = "High" ∨ s = "Medium") := by
  simp [List.contains, List.elem_iff]

/-- C5: for every technology in the portfolio, `assess_technology` follows
the fixed first-match rule table (emerging/High, then mature/High-or-Medium,
then the catch-all), and the `business_context` argument has no effect. -/
theorem assess_technology_rule_table (self : CTOAgent) (tn : String) (bc bc2 : StrMap) :
    self.assessTechnology tn bc = self.assessTechnology tn bc2 ∧
    ∀ tech, dictGet? self.technology_portfolio tn = some tech →
      ∃ a, self.assessTechnology tn bc = .ok a ∧
        a.technology = tech.name ∧
        a.recommendation =
          (if tech.maturity = "emerging" ∧ tech.potential_impact = "High"
           then "Monitor and consider pilot projects"
           else if tech.maturity = "mature" ∧
               (tech.potential_impact = "High" ∨ tech.potential_impact = "Medium")
           then "Strong candidate for adoption"
           else "Evaluate case-by-case") := by
  refine ⟨rfl, fun tech h => ?_⟩
  unfold CTOAgent.assessTechnology
  rw [h]
  simp only [Bool.and_eq_true, beq_iff_eq, contains_high_medium]
  split_ifs with c1 c2
  · exact ⟨_, rfl, rfl, rfl⟩
  · exact ⟨_, rfl, rfl, rfl⟩
  · exact ⟨_, rfl, rfl, rfl⟩

/-- Witness for `assess_technology_rule_table` on the default portfolio entry
"Cloud Native" (mature / High). -/
theorem assess_technology_rule_table_witness :
    dictGet? (CTOAgent.init "ACME" "retail" [] "t0").technology_portfolio "Cloud Native" =
      some { name := "Cloud Native", category := "Cloud Computing", maturity := "mature",
             potential_impact := "High",
             description := "Cloud-native technologies enable scalable and resilient applications.",
             relevant_use_cases := ["microservices", "containers", "serverless"],
             last_updated := "t0" } ∧
    ∃ a, (CTOAgent.init "ACME" "retail" [] "t0").assessTechnology "Cloud Native" [] = .ok a ∧
      a.technology = "Cloud Native" ∧
      a.recommendation =
        (if ("mature" : String) = "emerging" ∧ ("High" : String) = "High"
         then "Monitor and consider pilot projects"
         else if ("mature" : String) = "mature" ∧
             (("High" : String) = "High" ∨ ("High" : String) = "Medium")
         then "Strong candidate for adoption"
         else "Evaluate case-by-case") :=
  ⟨rfl, (assess_technology_rule_table (CTOAgent.init "ACME" "retail" [] "t0")
    "Cloud Native" [] []).2 _ rfl⟩

/-! ## Claim C6: recommendation bands of `evaluate_technology` -/

unseal Rat.add Rat.mul Rat.inv Rat.sub in
/-- Concrete evaluation: the Docker fit score against requirement
"Microservices" is exactly 10. -/
theorem docker_fit_eq_ten (now : String) :
    calculateTechFitScore (dockerTech now) ⟨some ["Microservices"]⟩ = 10 := by
  have hstable : calculateTechFitScore (dockerTech now) ⟨some ["Microservices"]⟩ =
      calculateTechFitScore (dockerTech "t0") ⟨some ["Microservices"]⟩ := rfl
  rw [hstable]
  decide

/-- C6: on a catalog hit, the recommendation is "Strongly recommend
adoption" exactly for fit score >= 8, "Consider for pilot" exactly for
6 <= score < 8, "Not recommended at this time" exactly for score < 6;
`evaluate_technology("Docker", {requirements: ["Microservices"]})` on the
default catalog yields fit score 10.0 and "Strongly recommend adoption". -/
theorem evaluate_technology_bands :
    (∀ (self : PrincipalSE) (name : String) (context : Context) (e : Evaluation),
       self.evaluateTechnology name context = .ok e →
       ((e.recommendation = "Strongly recommend adoption" ↔ 8 ≤ e.fit_score) ∧
        (e.recommendation = "Consider for pilot" ↔ 6 ≤ e.fit_score ∧ e.fit_score < 8) ∧
        (e.recommendation = "Not recommended at this time" ↔ e.fit_score < 6))) ∧
    (∀ (nm : String) (expertise : List String) (yrs : Int) (now : String),
       ∃ e, (PrincipalSE.init nm expertise yrs now).evaluateTechnology "Docker"
           ⟨some ["Microservices"]⟩ = .ok e ∧
         e.fit_score = 10 ∧ e.recommendation = "Strongly recommend adoption") := by
  constructor
  · intro self name context e h
    unfold PrincipalSE.evaluateTechnology at h
    cases hl : dictGet? self.technologies name with
    | none => rw [hl] at h; simp at h
    | some tech =>
      rw [hl] at h
      simp only [ge_iff_le] at h
      split_ifs at h with h8 h6
      all_goals
        simp only [EvalResult.ok.injEq] at h
        subst h
        refine ⟨?_, ?_, ?_⟩
      · exact iff_of_true rfl h8
      · exact iff_of_false (by simp) (by rintro ⟨-, hlt⟩; exact absurd h8 (not_le.mpr hlt))
      · exact iff_of_false (by simp) (not_lt.mpr (by linarith))
      · exact iff_of_false (by simp) (fun hge => h8 (by simpa using hge))
      · exact iff_of_true rfl ⟨h6, lt_of_not_le (by simpa using h8)⟩
      · exact iff_of_false (by simp) (not_lt.mpr h6)
      · exact iff_of_false (by simp) (fun hge => h8 (by simpa using hge))
      · exact iff_of_false (by simp) (by rintro ⟨h6a, -⟩; exact absurd h6a (by simpa using h6))
      · exact iff_of_true rfl (lt_of_not_le (by simpa using h6))
  · intro nm expertise yrs now
    refine ⟨dockerEvaluation, ?_, rfl, rfl⟩
    unfold PrincipalSE.evaluateTechnology
    have hl : dictGet? (PrincipalSE.init nm expertise yrs now).technologies "Docker" =
        some (dockerTech now) := rfl
    rw [hl]
    simp only [docker_fit_eq_ten]
    norm_num
    rfl

unseal Rat.add Rat.mul Rat.inv Rat.sub in
/-- Witness for `evaluate_technology_bands` at the default Docker entry. -/
theorem evaluate_technology_bands_witness :
    (PrincipalSE.init "E" ["Cloud"] 10 "t0").evaluateTechnology "Docker"
        ⟨some ["Microservices"]⟩ = .ok dockerEvaluation ∧
    ((dockerEvaluation.recommendation = "Strongly recommend adoption" ↔
        8 ≤ dockerEvaluation.fit_score) ∧
     (dockerEvaluation.recommendation = "Consider for pilot" ↔
        6 ≤ dockerEvaluation.fit_score ∧ dockerEvaluation.fit_score < 8) ∧
     (dockerEvaluation.recommendation = "Not recommended at this time" ↔
        dockerEvaluation.fit_score < 6)) :=
  ⟨by decide, evaluate_technology_bands.1 (PrincipalSE.init "E" ["Cloud"] 10 "t0")
    "Docker" ⟨some ["Microservices"]⟩ dockerEvaluation (by decide)⟩

unseal Rat.add Rat.mul Rat.inv Rat.sub in
/-- Witness for `option_score_spec` on a one-option context and on a
negative cost/risk score. -/
theorem option_score_spec_witness :
    optionScore defaultCriteria ⟨"A", some 1, none, none⟩ =
      specOptionScore defaultCriteria ⟨"A", some 1, none, none⟩ ∧
    makeDecision ⟨some [⟨"A", some 1, none, none⟩], none⟩ =
      .made ⟨"A", some 1, none, none⟩ (3/4)
        "Selected option based on criteria: strategic_alignment, cost, risk"
        [(⟨"A", some 1, none, none⟩, 3/4)] ∧
    ((3 : ℚ)/4 = specOptionScore defaultCriteria ⟨"A", some 1, none, none⟩) ∧
    ((-1 : ℚ) < 0) ∧
    (optionScore ["cost"] ⟨"A", none, some (-1), none⟩ >
       optionScore ["cost"] ⟨"A", none, some 0, none⟩ ∧
     optionScore ["risk"] ⟨"A", none, none, some (-1)⟩ >
       optionScore ["risk"] ⟨"A", none, none, some 0⟩) := by
  have hsc : optionScore defaultCriteria ⟨"A", some 1, none, none⟩ = 3/4 := by decide
  have hmd : makeDecision ⟨some [⟨"A", some 1, none, none⟩], none⟩ =
      .made ⟨"A", some 1, none, none⟩ (3/4)
        "Selected option based on criteria: strategic_alignment, cost, risk"
        [(⟨"A", some 1, none, none⟩, 3/4)] := by
    unfold makeDecision
    simp only [Option.getD_none, Option.getD_some, List.map_cons, List.map_nil, hsc,
      List.mergeSort_singleton]
    rfl
  refine ⟨option_score_spec.1 _ _, hmd, ?_, by decide, option_score_spec.2.2 "A" (-1) (by decide)⟩
  exact option_score_spec.2.1 _ _ _ _ _ hmd
    (⟨"A", some 1, none, none⟩, 3/4) (by simp)

/-! ## Claim C7: empty options sentinel -/

/-- C7: for every criteria value (present, absent, or empty), an empty
options list makes `make_decision` return the sentinel with decision `None`
and a non-empty rationale; the model is total, so no exception is possible. -/
theorem make_decision_empty_options (criteria : Option (List String)) :
    makeDecision ⟨some [], criteria⟩ = .noOptions "No options provided for decision" ∧
    makeDecision ⟨none, criteria⟩ = .noOptions "No options provided for decision" ∧
    "No options provided for decision" ≠ "" :=
  ⟨rfl, rfl, by decide⟩

/-! ## Claim C8: unknown technology names -/

/-- C8: a name missing from the respective catalog makes
`evaluate_technology` return the `not_found` result and `assess_technology`
the `unknown` result, each with a non-empty message and never an
evaluation/assessment object. -/
theorem unknown_technology_results (pse : PrincipalSE) (cto : CTOAgent)
    (nm tn : String) (context : Context) (bc : StrMap)
    (h1 : dictGet? pse.technologies nm = none)
    (h2 : dictGet? cto.technology_portfolio tn = none) :
    pse.evaluateTechnology nm context =
      .notFound ("No data available for technology: " ++ nm) ∧
    (∀ e, pse.evaluateTechnology nm context ≠ .ok e) ∧
    ("No data available for technology: " ++ nm) ≠ "" ∧
    cto.assessTechnology tn bc = .unknown ("No data on " ++ tn) ∧
    (∀ a, cto.assessTechnology tn bc ≠ .ok a) ∧
    ("No data on " ++ tn) ≠ "" := by
  have e1 : pse.evaluateTechnology nm context =
      .notFound ("No data available for technology: " ++ nm) := by
    unfold PrincipalSE.evaluateTechnology
    rw [h1]
  have e2 : cto.assessTechnology tn bc = .unknown ("No data on " ++ tn) := by
    unfold CTOAgent.assessTechnology
    rw [h2]
  refine ⟨e1, fun e he => ?_, ?_, e2, fun a ha => ?_, ?_⟩
  · rw [e1] at he
    exact EvalResult.noConfusion he
  · intro hh
    have hlen := congrArg String.length hh
    rw [String.length_append] at hlen
    have hpre : ("No data available for technology: ").length = 34 := by decide
    have hnil : ("" : String).length = 0 := by decide
    omega
  · rw [e2] at ha
    exact AssessResult.noConfusion ha
  · intro hh
    have hlen := congrArg String.length hh
    rw [String.length_append] at hlen
    have hpre : ("No data on ").length = 11 := by decide
    have hnil : ("" : String).length = 0 := by decide
    omega

/-- Witness for `unknown_technology_results` on the default catalogs and
the absent name "GraphQL". -/
theorem unknown_technology_results_witness :
    dictGet? (PrincipalSE.init "E" ["Cloud"] 10 "t0").technologies "GraphQL" = none ∧
    dictGet? (CTOAgent.init "ACME" "retail" [] "t0").technology_portfolio "GraphQL" = none ∧
    ((PrincipalSE.init "E" ["Cloud"] 10 "t0").evaluateTechnology "GraphQL" ⟨none⟩ =
      .notFound ("No data available for technology: " ++ "GraphQL") ∧
     (∀ e, (PrincipalSE.init "E" ["Cloud"] 10 "t0").evaluateTechnology "GraphQL" ⟨none⟩ ≠ .ok e) ∧
     ("No data available for technology: " ++ "GraphQL") ≠ "" ∧
     (CTOAgent.init "ACME" "retail" [] "t0").assessTechnology "GraphQL" [] =
       .unknown ("No data on " ++ "GraphQL") ∧
     (∀ a, (CTOAgent.init "ACME" "retail" [] "t0").assessTechnology "GraphQL" [] ≠ .ok a) ∧
     ("No data on " ++ "GraphQL") ≠ "") :=
  ⟨rfl, rfl,
   unknown_technology_results (PrincipalSE.init "E" ["Cloud"] 10 "t0")
     (CTOAgent.init "ACME" "retail" [] "t0") "GraphQL" "GraphQL" ⟨none⟩ [] rfl rfl⟩

/-! ## Claim C4: the AWS/Azure/GCP worked example -/

unseal Rat.add Rat.mul Rat.inv Rat.sub in
/-- Concrete evaluation of `make_decision` on the worked example: AWS wins
with score 0.70, ahead of Azure (0.66) and GCP (0.53). -/
theorem makeDecision_cloud_example :
    makeDecision ⟨some [awsOption, azureOption, gcpOption],
        some ["strategic_alignment", "cost", "risk"]⟩ =
      .made awsOption (7/10)
        "Selected option based on criteria: strategic_alignment, cost, risk"
        [(awsOption, 7/10), (azureOption, 33/50), (gcpOption, 53/100)] := by
  have hsorted : ([(awsOption, (7:ℚ)/10), (azureOption, 33/50),
      (gcpOption, 53/100)]).mergeSort scoreDesc =
      [(awsOption, 7/10), (azureOption, 33/50), (gcpOption, 53/100)] :=
    List.mergeSort_of_sorted (by decide)
  unfold makeDecision
  simp only [Option.getD_some, List.map_cons, List.map_nil,
    show optionScore ["strategic_alignment", "cost", "risk"] awsOption = 7/10 from by decide,
    show optionScore ["strategic_alignment", "cost", "risk"] azureOption = 33/50 from by decide,
    show optionScore ["strategic_alignment", "cost", "risk"] gcpOption = 53/100 from by decide]
  rw [hsorted]
  rfl

unseal Rat.add Rat.mul Rat.inv Rat.sub in
/-- C4 counterexample: on the AWS/Azure/GCP example the computed scores are
0.70, 0.66 and 0.53 — not 0.74, 0.68 and 0.61 — and the AWS score is not
0.64. The ranking AWS > Azure > GCP does hold. -/
theorem cloud_example_counterexample :
    makeDecision ⟨some [awsOption, azureOption, gcpOption],
        some ["strategic_alignment", "cost", "risk"]⟩ =
      .made awsOption (7/10)
        "Selected option based on criteria: strategic_alignment, cost, risk"
        [(awsOption, 7/10), (azureOption, 33/50), (gcpOption, 53/100)] ∧
    optionScore ["strategic_alignment", "cost", "risk"] awsOption ≠ 16/25 ∧
    (7/10 : ℚ) ≠ 37/50 ∧ (33/50 : ℚ) ≠ 17/25 ∧ (53/100 : ℚ) ≠ 61/100 :=
  ⟨makeDecision_cloud_example, by decide, by decide, by decide, by decide⟩

unseal Rat.add Rat.mul Rat.inv Rat.sub in
/-- C4 (amended): on the worked example `make_decision` ranks AWS first,
Azure second and GCP third with scores 0.70, 0.66, 0.53, and the AWS score is
0.9 * 0.5 + (1 - 0.7) * 0.3 + (1 - 0.2) * 0.2 = 0.70. -/
theorem cloud_example_amended :
    makeDecision ⟨some [awsOption, azureOption, gcpOption],
        some ["strategic_alignment", "cost", "risk"]⟩ =
      .made awsOption (7/10)
        "Selected option based on criteria: strategic_alignment, cost, risk"
        [(awsOption, 7/10), (azureOption, 33/50), (gcpOption, 53/100)] ∧
    optionScore ["strategic_alignment", "cost", "risk"] awsOption =
      (9/10) * (1/2) + (1 - 7/10) * (3/10) + (1 - 1/5) * (1/5) ∧
    ((9/10 : ℚ) * (1/2) + (1 - 7/10) * (3/10) + (1 - 1/5) * (1/5) = 7/10) :=
  ⟨makeDecision_cloud_example, by decide, by decide⟩

/-! ## Claim C9: ranking is a stable sort -/

theorem pair_get_sublist {α : Type} : ∀ (l : List α) (i j : ℕ) (hij : i < j)
    (hj : j < l.length),
    List.Sublist [l.get ⟨i, Nat.lt_trans hij hj⟩, l.get ⟨j, hj⟩] l
  | [], _, _, _, hj => absurd hj (by simp)
  | _ :: _, _, 0, hij, _ => absurd hij (by omega)
  | a :: t, 0, j + 1, hij, hj =>
    List.Sublist.cons₂ a
      (List.singleton_sublist.mpr (t.get_mem j (Nat.lt_of_succ_lt_succ hj)))
  | a :: t, i + 1, j + 1, hij, hj =>
    List.Sublist.cons a
      (pair_get_sublist t i j (Nat.lt_of_succ_lt_succ hij) (Nat.lt_of_succ_lt_succ hj))

theorem scoreDesc_trans (a b c : DecisionOption × ℚ) :
    scoreDesc a b = true → scoreDesc b c = true → scoreDesc a c = true := by
  intro h1 h2
  simp only [scoreDesc, decide_eq_true_eq] at h1 h2 ⊢
  exact le_trans h2 h1

theorem scoreDesc_total (a b : DecisionOption × ℚ) :
    (scoreDesc a b || scoreDesc b a) = true := by
  simp only [scoreDesc, Bool.or_eq_true, decide_eq_true_eq]
  exact le_total b.2 a.2

/-- C9: two options with identical computed scores keep their original
relative order in the ranked `all_options` list (the descending sort is
stable). -/
theorem make_decision_stable (ctx : DecisionContext) (opts : List DecisionOption)
    (i j : ℕ) (hij : i < j) (hj : j < opts.length) (hopts : ctx.options = some opts)
    (heq : optionScore (ctx.criteria.getD defaultCriteria) (opts.get ⟨i, Nat.lt_trans hij hj⟩) =
      optionScore (ctx.criteria.getD defaultCriteria) (opts.get ⟨j, hj⟩)) :
    ([(opts.get ⟨i, Nat.lt_trans hij hj⟩,
        optionScore (ctx.criteria.getD defaultCriteria) (opts.get ⟨i, Nat.lt_trans hij hj⟩)),
     (opts.get ⟨j, hj⟩,
        optionScore (ctx.criteria.getD defaultCriteria) (opts.get ⟨j, hj⟩))]).Sublist
      (allOptions (makeDecision ctx)) := by
  cases opts with
  | nil => simp at hj
  | cons o os =>
    have hall : allOptions (makeDecision ctx) =
        ((o :: os).map fun option =>
          (option, optionScore (ctx.criteria.getD defaultCriteria) option)).mergeSort
          scoreDesc := by
      unfold makeDecision
      rw [hopts]
      simp only [Option.getD_some]
      cases hms : ((o :: os).map fun option =>
          (option, optionScore (ctx.criteria.getD defaultCriteria) option)).mergeSort
          scoreDesc with
      | nil =>
        have := congrArg List.length hms
        simp [List.length_mergeSort] at this
      | cons b rest =>
        simp [allOptions]
    rw [hall]
    apply List.pair_sublist_mergeSort scoreDesc_trans scoreDesc_total
    · simp only [scoreDesc, decide_eq_true_eq]
      have heq2 := heq
      simp only [List.get_eq_getElem] at heq2
      simp only [List.get_eq_getElem]
      exact le_of_eq heq2.symm
    · have hpair := pair_get_sublist (o :: os) i j hij hj
      have hmap := List.Sublist.map
        (fun option => (option, optionScore (ctx.criteria.getD defaultCriteria) option)) hpair
      simpa using hmap

unseal Rat.add Rat.mul Rat.inv Rat.sub in
/-- Witness for `make_decision_stable`: two options tied on the
`strategic_alignment` criterion keep input order. -/
theorem make_decision_stable_witness :
    (0 < 1 ∧ 1 < 2 ∧
     optionScore ["strategic_alignment"] ⟨"A", some 1, none, none⟩ =
       optionScore ["strategic_alignment"] ⟨"B", some 1, none, none⟩) ∧
    ([((⟨"A", some 1, none, none⟩ : DecisionOption),
        optionScore ["strategic_alignment"] ⟨"A", some 1, none, none⟩),
     ((⟨"B", some 1, none, none⟩ : DecisionOption),
        optionScore ["strategic_alignment"] ⟨"B", some 1, none, none⟩)]).Sublist
      (allOptions (makeDecision ⟨some [⟨"A", some 1, none, none⟩, ⟨"B", some 1, none, none⟩],
        some ["strategic_alignment"]⟩)) :=
  ⟨⟨by decide, by decide, by decide⟩,
   make_decision_stable
     ⟨some [⟨"A", some 1, none, none⟩, ⟨"B", some 1, none, none⟩], some ["strategic_alignment"]⟩
     [⟨"A", some 1, none, none⟩, ⟨"B", some 1, none, none⟩] 0 1 (by decide) (by decide)
     rfl (by decide)⟩

/-! ## Claims C3 and C10: serialization round trip -/

theorem ofValue_value (p : ArchitecturePattern) :
    ArchitecturePattern.ofValue p.value = some p := by
  cases p <;> rfl

theorem mapM_map_some {α β γ : Type} (f : α → β) (g : β → Option γ) (h : α → γ)
    (H : ∀ a, g (f a) = some (h a)) : ∀ l : List α, (l.map f).mapM g = some (l.map h)
  | [] => rfl
  | a :: t => by
    simp only [List.map_cons, List.mapM_cons, H a, mapM_map_some f g h H t,
      Option.bind_eq_bind, Option.some_bind]
    rfl

theorem patterns_roundtrip (pats : List ArchitecturePattern) :
    (pats.map ArchitecturePattern.value).mapM ArchitecturePattern.ofValue = some pats := by
  have h := mapM_map_some ArchitecturePattern.value ArchitecturePattern.ofValue id
    ofValue_value pats
  simpa using h

theorem designs_mapM (l : List (String × SystemDesign)) (now : String) :
    (l.map designToSnap).mapM (fun p => do
      let patterns ← p.2.patterns.mapM ArchitecturePattern.ofValue
      pure (p.1, ({ name := p.1, description := p.2.description, components := [],
                    patterns, technologies := p.2.technologies,
                    scalability_considerations := [], failure_modes := [],
                    created_at := p.2.created_at.getD now } : SystemDesign))) =
    some (l.map designRebuilt) := by
  refine mapM_map_some designToSnap _ designRebuilt (fun p => ?_) l
  simp only [designToSnap]
  rw [patterns_roundtrip]
  rfl

/-- Helper: `from_dict` after `to_dict` succeeds and yields the explicitly
reconstructed agent (keys copied back into `name` fields, design lists
emptied). -/
theorem pse_fromDict_toDict (a : PrincipalSE) (now : String) :
    PrincipalSE.fromDict a.toDict now = some
      { name := a.name, expertise := a.expertise,
        experience_years := a.experience_years,
        technologies := a.technologies.map techRebuilt,
        system_designs := a.system_designs.map designRebuilt } := by
  unfold PrincipalSE.fromDict PrincipalSE.toDict
  simp only [Option.getD_some]
  rw [show (a.system_designs.map fun p =>
      (p.1, ({ description := p.2.description,
               patterns := p.2.patterns.map ArchitecturePattern.value,
               technologies := p.2.technologies,
               created_at := some p.2.created_at } : SystemDesignSnap))) =
    a.system_designs.map designToSnap from rfl]
  rw [designs_mapM]
  simp only [Option.bind_eq_bind, Option.some_bind, List.map_map, Option.some.injEq]
  congr 1

/-- C3: for both agents, serializing, reconstructing with `from_dict`, and
serializing again reproduces the original snapshot exactly; missing
optional snapshot fields default to empty containers (and experience years
to 5) without failing. -/
theorem snapshot_roundtrip :
    (∀ (a : CTOAgent) (now : String), (CTOAgent.fromDict a.toDict now).toDict = a.toDict) ∧
    (∀ (a : PrincipalSE) (now : String),
       (PrincipalSE.fromDict a.toDict now).map PrincipalSE.toDict = some a.toDict) ∧
    (∀ (c i now : String), CTOAgent.fromDict ⟨c, i, none, none, none, none, none⟩ now =
       { company_name := c, industry := i, tech_stack := [], technology_portfolio := [],
         strategic_goals := [], team_structure := [], budget_allocation := [] }) ∧
    (∀ (nm : String) (expertise : List String) (now : String),
       PrincipalSE.fromDict ⟨nm, expertise, none, none, none⟩ now =
         some { name := nm, expertise := expertise, experience_years := 5,
                technologies := [], system_designs := [] }) := by
  refine ⟨?_, ?_, fun c i now => rfl, fun nm expertise now => rfl⟩
  · intro a now
    unfold CTOAgent.toDict CTOAgent.fromDict
    simp only [Option.getD_some, List.map_map, CTOSnapshot.mk.injEq, Option.some.injEq,
      true_and, and_true]
    exact List.map_congr_left fun p _ => rfl
  · intro a now
    rw [pse_fromDict_toDict]
    simp only [Option.map_some']
    unfold PrincipalSE.toDict
    simp only [List.map_map, PSESnapshot.mk.injEq, Option.some.injEq, true_and, and_true]
    constructor
    · exact List.map_congr_left fun p _ => rfl
    · exact List.map_congr_left fun p _ => rfl

/-- C10: reconstructing a `PrincipalSE` from its own snapshot empties every
design fields `components`, `scalability_considerations` and `failure_modes`
(the snapshot never stored them), while keys, descriptions, patterns,
technologies and timestamps survive - so non-empty design lists are
silently lost across a save/load cycle even though the snapshot-level
round trip holds. -/
theorem design_lists_lost (a : PrincipalSE) (now : String) (a2 : PrincipalSE)
    (h : PrincipalSE.fromDict a.toDict now = some a2) :
    (∀ p ∈ a2.system_designs, p.2.components = ([] : List StrMap) ∧
       p.2.scalability_considerations = ([] : List String) ∧
       p.2.failure_modes = ([] : List String)) ∧
    a2.system_designs.map (fun p => (p.1, p.2.description, p.2.patterns,
        p.2.technologies, p.2.created_at)) =
      a.system_designs.map (fun p => (p.1, p.2.description, p.2.patterns,
        p.2.technologies, p.2.created_at)) := by
  rw [pse_fromDict_toDict] at h
  injection h with h2
  subst h2
  constructor
  · intro p hp
    obtain ⟨q, -, rfl⟩ := List.mem_map.mp hp
    exact ⟨rfl, rfl, rfl⟩
  · simp only [List.map_map]
    exact List.map_congr_left fun p _ => rfl

/-- Witness for `design_lists_lost` at `shopAgent`, whose design lists are
non-empty before the round trip. -/
theorem design_lists_lost_witness :
    PrincipalSE.fromDict shopAgent.toDict "t2" = some shopAgentRebuilt ∧
    shopAgent.system_designs.map (fun p => p.2.components) = [[[("kind", "db")]]] ∧
    ((∀ p ∈ shopAgentRebuilt.system_designs, p.2.components = ([] : List StrMap) ∧
        p.2.scalability_considerations = ([] : List String) ∧
        p.2.failure_modes = ([] : List String)) ∧
     shopAgentRebuilt.system_designs.map (fun p => (p.1, p.2.description, p.2.patterns,
         p.2.technologies, p.2.created_at)) =
       shopAgent.system_designs.map (fun p => (p.1, p.2.description, p.2.patterns,
         p.2.technologies, p.2.created_at))) :=
  ⟨by decide, by decide, design_lists_lost shopAgent "t2" shopAgentRebuilt (by decide)⟩

end NebulaStack
